import Mathlib

/-!
Shallow embedding of `src/host/analysis/RawDataConverter/Histogram.cpp` (class
`Histogram` of the pyBAR raw-data converter).

Modelling conventions:
* The sensor geometry macros `RAW_DATA_MAX_COLUMN` and `RAW_DATA_MAX_ROW` are
  defined in a header that is not part of the repository snapshot; the spec only
  says they are fixed compile-time constants.  Every definition that uses them
  takes them as explicit `maxColumn maxRow : Nat` arguments, so all theorems
  hold for any fixed choice of the constants.
* C arrays (`unsigned int* _occupancy`, `unsigned long* _tot`, `unsigned long*
  _relBcid`, `unsigned long* _metaEventIndex`, `ParInfo* _parInfo`) are
  modelled as total functions from `Nat`; the separately stored lengths mirror
  the C length members.  A null pointer that the code explicitly tests for
  (`_parInfo == 0`) is modelled with `Option`.  Fresh heap allocation leaves the
  C array contents unspecified until the matching `reset...` call zero-fills
  it; allocation is therefore modelled as keeping the previous (arbitrary)
  function and the reset functions zero exactly the slots the C loops write.
* Counters (`unsigned int` / `unsigned long` cells incremented by `+= 1`) are
  modelled as `Nat`.  The source has no overflow guard (spec §9 documents the
  silent-wraparound as a known limitation); wraparound after 2^32 increments of
  a single cell is not modelled.  Machine arithmetic that the control flow
  depends on (the `column-1` / `row-1` underflow into `unsigned short` /
  `unsigned int`, and the `std::set<int>` signed reinterpretation in
  `setParameterLimits`) is modelled exactly with explicit `% 2^16` / `% 2^32`.
* The `throw 20` .. `throw 25` integer exceptions are modelled by the
  `HistError` type; a thrown error carries the `Histogram` state at the throw
  point (C++ exceptions leave the object in its current state).  Logging via
  `error(...)` / `debug(...)` has no state effect and is dropped.
-/

/-- One scan-parameter table entry (`struct ParInfo`), field `scanParameter`
is an `unsigned int` in C. -/
structure ParInfo where
  scanParameter : Nat

/-- One decoded hit (`struct HitInfo`), with the fields `addHits` reads:
`eventNumber` (`unsigned long`), 1-based `column` and `row`, `tot` and
`relativeBCID` (4-bit fields). -/
structure HitInfo where
  eventNumber : Nat
  column : Nat
  row : Nat
  tot : Nat
  relativeBCID : Nat

/-- The integer exceptions thrown by `Histogram.cpp`:
`throw 20` = invalid column, `throw 21` = invalid row, `throw 22` = parameter
index out of range (logged with index and min/max parameter values),
`throw 23` = correlation error (logged with event number and the last
meta-event-index boundary), `throw 24` = invalid ToT, `throw 25` = invalid
relative BCID. -/
inductive HistError where
  | invalidColumn
  | invalidRow
  | parameterIndexOutOfRange (tParIndex minParameterValue maxParameterValue : Nat)
  | correlationError (eventNumber lastBoundary : Nat)
  | invalidTot
  | invalidBcid
deriving DecidableEq

/-- The mutable state of class `Histogram` (member variables of
`Histogram.h` as used by `Histogram.cpp`). -/
structure Histogram where
  _metaEventIndex : Nat → Nat
  _nMetaEventIndexLength : Nat
  _parInfo : Option (Nat → ParInfo)
  _nParInfoLength : Nat
  _lastMetaEventIndex : Nat
  _parameterValues : List Nat
  _NparameterValues : Nat
  _minParameterValue : Nat
  _maxParameterValue : Nat
  _occupancy : Nat → Nat
  _tot : Nat → Nat
  _relBcid : Nat → Nat
  _createOccHist : Bool
  _createRelBCIDhist : Bool
  _createTotHist : Bool

/-- The constructor `Histogram::Histogram`.  The C++ constructor leaves
`_nParInfoLength`, `_nMetaEventIndexLength` and the array contents behind the
null pointers uninitialized; they are modelled as 0 — the code only reads them
after they have been set. -/
def histInit : Histogram where
  _metaEventIndex := fun _ => 0
  _nMetaEventIndexLength := 0
  _parInfo := none
  _nParInfoLength := 0
  _lastMetaEventIndex := 0
  _parameterValues := []
  _NparameterValues := 1
  _minParameterValue := 0
  _maxParameterValue := 0
  _occupancy := fun _ => 0
  _tot := fun _ => 0
  _relBcid := fun _ => 0
  _createOccHist := false
  _createRelBCIDhist := false
  _createTotHist := false

/-- Model of `Histogram::createOccupancyHist`: only sets the flag (occupancy allocation
is driven by `addScanParameter` / `setNoScanParameter`). -/
def createOccupancyHist (h : Histogram) (b : Bool) : Histogram :=
  { h with _createOccHist := b }

/-- Model of `Histogram::deleteTotArray`: frees the array and nulls the pointer; the
stale contents are irrelevant (every observable path re-fills before reading),
so the model keeps the function unchanged. -/
def deleteTotArray (h : Histogram) : Histogram := h

/-- Model of `Histogram::allocateTotArray`: `delete` + `new unsigned long[16]`; the C
contents are unspecified until `resetTotArray` runs, modelled by keeping the
previous (arbitrary) function. -/
def allocateTotArray (h : Histogram) : Histogram := deleteTotArray h

/-- Model of `Histogram::resetTotArray`: zero-fills the 16 slots (`for i < 16`). -/
def resetTotArray (h : Histogram) : Histogram :=
  { h with _tot := fun i => if i < 16 then 0 else h._tot i }

/-- Model of `Histogram::createTotHist`: sets the flag, then unconditionally
reallocates and zero-fills the 16-slot ToT array. -/
def createTotHist (h : Histogram) (b : Bool) : Histogram :=
  resetTotArray (allocateTotArray { h with _createTotHist := b })

/-- Model of `Histogram::deleteRelBcidArray` (see `deleteTotArray`). -/
def deleteRelBcidArray (h : Histogram) : Histogram := h

/-- Model of `Histogram::allocateRelBcidArray` (see `allocateTotArray`). -/
def allocateRelBcidArray (h : Histogram) : Histogram := deleteRelBcidArray h

/-- Model of `Histogram::resetRelBcidArray`: zero-fills the 16 slots. -/
def resetRelBcidArray (h : Histogram) : Histogram :=
  { h with _relBcid := fun i => if i < 16 then 0 else h._relBcid i }

/-- Model of `Histogram::createRelBCIDHist`: sets the flag, then unconditionally
reallocates and zero-fills the 16-slot relative-BCID array. -/
def createRelBCIDHist (h : Histogram) (b : Bool) : Histogram :=
  resetRelBcidArray (allocateRelBcidArray { h with _createRelBCIDhist := b })

/-- Model of `Histogram::deleteOccupancyArray` (see `deleteTotArray`). -/
def deleteOccupancyArray (h : Histogram) : Histogram := h

/-- Model of `Histogram::allocateOccupancyArray`: `delete` + `new unsigned int[...]` of
size `(maxColumn-1) + (maxRow-1)*maxColumn + (N-1)*maxColumn*maxRow + 1`
(= `maxColumn*maxRow*N` for positive dimensions); contents unspecified until
`resetOccupancyArray`, modelled by keeping the previous function. -/
def allocateOccupancyArray (h : Histogram) : Histogram := deleteOccupancyArray h

/-- The flattened occupancy index used throughout the source:
`tColumnIndex + tRowIndex*RAW_DATA_MAX_COLUMN
 + tParIndex*RAW_DATA_MAX_COLUMN*RAW_DATA_MAX_ROW`. -/
def occIdx (maxColumn maxRow i j k : Nat) : Nat :=
  i + j * maxColumn + k * maxColumn * maxRow

/-- Model of `Histogram::resetOccupancyArray`: the triple loop writes 0 at
`occIdx maxColumn maxRow i j k` for all `i < maxColumn`, `j < maxRow`,
`k < _NparameterValues`; those indices are exactly the numbers below
`maxColumn * maxRow * _NparameterValues` (base-decomposition), so the model
zeroes that initial segment. -/
def resetOccupancyArray (maxColumn maxRow : Nat) (h : Histogram) : Histogram :=
  { h with _occupancy := fun idx =>
      if idx < maxColumn * maxRow * h._NparameterValues then 0 else h._occupancy idx }

/-- Model of the `unsigned int` counter increment `arr[i] += 1` (no overflow guard in the
source; modelled on `Nat`). -/
def arrayIncrement (f : Nat → Nat) (i : Nat) : Nat → Nat :=
  fun j => if j = i then f j + 1 else f j

/-- The `for(i=_lastMetaEventIndex; i<_nMetaEventIndexLength-1; ++i)` loop of
`Histogram::getEventParameter`, written with the remaining iteration count
`fuel = (_nMetaEventIndexLength - 1) - i` as structural recursion: it returns
the first `i` (scanning upward) with `_metaEventIndex[i+1] > rEventNumber` or
`_metaEventIndex[i+1] < _metaEventIndex[i]` (the unfilled-metadata case), or
`none` when the loop runs off the end. -/
def getEventParameterLoop (metaEventIndex : Nat → Nat) (rEventNumber : Nat) :
    Nat → Nat → Option Nat
  | 0, _ => none
  | fuel + 1, i =>
    if metaEventIndex (i + 1) > rEventNumber ∨ metaEventIndex (i + 1) < metaEventIndex i then
      some i
    else
      getEventParameterLoop metaEventIndex rEventNumber fuel (i + 1)

/-- Model of `Histogram::getEventParameter`: with no parameter table (`_parInfo == 0`)
returns scan-parameter value 0; otherwise scans forward from
`_lastMetaEventIndex` (updating it on a match), falls back to the last table
entry when the loop exhausts and `_metaEventIndex[len-1] <= rEventNumber`, and
otherwise `throw 23` with the event number and the last boundary value. -/
def getEventParameter (h : Histogram) (rEventNumber : Nat) :
    Except HistError (Nat × Histogram) :=
  match h._parInfo with
  | none => Except.ok (0, h)
  | some parInfo =>
    match getEventParameterLoop h._metaEventIndex rEventNumber
        (h._nMetaEventIndexLength - 1 - h._lastMetaEventIndex) h._lastMetaEventIndex with
    | some i => Except.ok ((parInfo i).scanParameter, { h with _lastMetaEventIndex := i })
    | none =>
      if h._metaEventIndex (h._nMetaEventIndexLength - 1) ≤ rEventNumber then
        Except.ok ((parInfo (h._nMetaEventIndexLength - 1)).scanParameter, h)
      else
        Except.error (HistError.correlationError rEventNumber
          (h._metaEventIndex (h._nMetaEventIndexLength - 1)))

/-- The `for(i = 0; i<_parameterValues.size(); ++i)` loop of
`Histogram::getParIndex`, carrying the running index `i`. -/
def getParIndexLoop (rEventParameter : Nat) : List Nat → Nat → Option Nat
  | [], _ => none
  | v :: rest, i =>
    if v = rEventParameter then some i else getParIndexLoop rEventParameter rest (i + 1)

/-- Model of `Histogram::getParIndex`: linear search of `_parameterValues` for the
first exact match; falls through to `return 0` when the value is absent. -/
def getParIndex (h : Histogram) (rEventParameter : Nat) : Nat :=
  (getParIndexLoop rEventParameter h._parameterValues 0).getD 0

/-- The body of the `addHits` loop for one hit.  `unsigned short tColumnIndex
= column-1` underflows to 65535 for `column = 0` (so column 0 fails the bounds
check), and `unsigned int tRowIndex = row-1` underflows to `2^32-1` for
`row = 0`; both are modelled with the exact machine arithmetic.  The
`tParIndex < 0` half of the C range check is vacuous for an unsigned value and
is dropped.  An error carries the state at the throw point. -/
def addHit (maxColumn maxRow : Nat) (h : Histogram) (hit : HitInfo) :
    Except (HistError × Histogram) Histogram :=
  let tColumnIndex : Nat := (hit.column + 65535) % 65536
  if tColumnIndex > maxColumn - 1 then Except.error (HistError.invalidColumn, h)
  else
    let tRowIndex : Nat := (hit.row + 4294967295) % 4294967296
    if tRowIndex > maxRow - 1 then Except.error (HistError.invalidRow, h)
    else if hit.tot > 15 then Except.error (HistError.invalidTot, h)
    else if hit.relativeBCID > 15 then Except.error (HistError.invalidBcid, h)
    else
      match getEventParameter h hit.eventNumber with
      | Except.error e => Except.error (e, h)
      | Except.ok (tEventParameter, h1) =>
        let tParIndex := getParIndex h1 tEventParameter
        if tParIndex > h1._NparameterValues - 1 then
          Except.error (HistError.parameterIndexOutOfRange tParIndex
            h1._minParameterValue h1._maxParameterValue, h1)
        else
          let h2 := if h1._createOccHist then
              { h1 with _occupancy := (arrayIncrement h1._occupancy
                  (occIdx maxColumn maxRow tColumnIndex tRowIndex tParIndex)) }
            else h1
          let h3 := if h2._createRelBCIDhist then
              { h2 with _relBcid := arrayIncrement h2._relBcid hit.relativeBCID }
            else h2
          let h4 := if h3._createTotHist then
              { h3 with _tot := arrayIncrement h3._tot hit.tot }
            else h3
          Except.ok h4

/-- Model of `Histogram::addHits`: processes the batch in order; the first `throw`
aborts the batch, carrying the state reached so far. -/
def addHits (maxColumn maxRow : Nat) :
    Histogram → List HitInfo → Except (HistError × Histogram) Histogram
  | h, [] => Except.ok h
  | h, hit :: rest =>
    Except.bind (addHit maxColumn maxRow h hit)
      (fun h1 => addHits maxColumn maxRow h1 rest)

/-- Reading `_parInfo[i].scanParameter`; dereferencing the null pointer is
undefined behaviour in C (never reached when `_nParInfoLength` entries were
supplied), modelled as 0. -/
def parInfoValue (h : Histogram) (i : Nat) : Nat :=
  match h._parInfo with
  | some f => (f i).scanParameter
  | none => 0

/-- Conversion `unsigned int` → `int` used by `std::set<int>` in
`setParameterLimits`: values up to `2^31 - 1` are preserved, larger 32-bit
values wrap to negative (two's-complement, the behaviour of all mainstream
compilers; implementation-defined before C++20). -/
def toInt32 (v : Nat) : Int :=
  if v % 4294967296 < 2147483648 then ((v % 4294967296 : Nat) : Int)
  else ((v % 4294967296 : Nat) : Int) - 4294967296

/-- Model of `std::unique` on a vector (removal of consecutive duplicate elements),
helper carrying the previous element. -/
def removeConsecutiveDuplicatesAux : Nat → List Nat → List Nat
  | _, [] => []
  | prev, b :: rest =>
    if b = prev then removeConsecutiveDuplicatesAux prev rest
    else b :: removeConsecutiveDuplicatesAux b rest

/-- Model of `std::unique`: keeps the first element of every run of consecutive equal
elements. -/
def removeConsecutiveDuplicates : List Nat → List Nat
  | [] => []
  | a :: rest => a :: removeConsecutiveDuplicatesAux a rest

/-- Model of `Histogram::setParameterLimits`:
1. collect all `_parInfo[i].scanParameter` (`i < _nParInfoLength`);
2. `std::sort` ascending (as `unsigned int`; `std::sort` on `Nat` values is
   order-equivalent to `insertionSort (· ≤ ·)`);
3. build a `std::set<int>` from the sorted values — this deduplicates but
   iterates in *signed* ascending order (`toInt32`) — and assign it to
   `_parameterValues`; the following `std::unique` call is a no-op on an
   already consecutive-duplicate-free vector and its return value is
   discarded;
4. `_minParameterValue` / `_maxParameterValue` are `front()` / `back()` of the
   sorted vector (undefined behaviour on an empty vector, modelled as 0);
5. `_NparameterValues` is the distinct count
   `std::unique(tParameterValues) - begin`. -/
def setParameterLimits (h : Histogram) : Histogram :=
  let tParameterValues : List Nat :=
    (List.range h._nParInfoLength).map (fun i => parInfoValue h i)
  let tSorted : List Nat := List.insertionSort (fun a b => a ≤ b) tParameterValues
  let tSet : List Nat :=
    List.insertionSort (fun a b => toInt32 a ≤ toInt32 b) tSorted.dedup
  { h with
    _parameterValues := tSet
    _minParameterValue := tSorted.headD 0
    _maxParameterValue := tSorted.getLastD 0
    _NparameterValues := (removeConsecutiveDuplicates tSorted).length }

/-- Model of `Histogram::addScanParameter` (the spec's `setScanParameters`): stores the
table, derives the parameter limits, then reallocates and zero-fills the
occupancy array. -/
def addScanParameter (maxColumn maxRow : Nat) (h : Histogram)
    (rNparInfoLength : Nat) (rParInfo : Nat → ParInfo) : Histogram :=
  resetOccupancyArray maxColumn maxRow (allocateOccupancyArray (setParameterLimits
    { h with _nParInfoLength := rNparInfoLength, _parInfo := some rParInfo }))

/-- Model of `Histogram::addMetaEventIndex`: stores the event-number boundary table. -/
def addMetaEventIndex (h : Histogram) (rNmetaEventIndexLength : Nat)
    (rMetaEventIndex : Nat → Nat) : Histogram :=
  { h with _nMetaEventIndexLength := rNmetaEventIndexLength,
           _metaEventIndex := rMetaEventIndex }

/-- Model of `Histogram::setNoScanParameter`: frees the occupancy array, forces the
parameter count to 1, reallocates and zero-fills. -/
def setNoScanParameter (maxColumn maxRow : Nat) (h : Histogram) : Histogram :=
  resetOccupancyArray maxColumn maxRow (allocateOccupancyArray
    { deleteOccupancyArray h with _NparameterValues := 1 })

/-- Sum of all cells of the occupancy array (the allocated size is
`maxColumn * maxRow * _NparameterValues`). -/
def occupancySum (maxColumn maxRow : Nat) (h : Histogram) : Nat :=
  Finset.sum (Finset.range (maxColumn * maxRow * h._NparameterValues))
    (fun idx => h._occupancy idx)

/-- The IEEE double constant `sqrt(3.141592653589893238462643383/2)` of the
threshold-scan noise formula.  IEEE double semantics are outside this
embedding; the factor is modelled as an exact rational close to `sqrt(pi/2)`
(the embedding of `calculateThresholdScanArrays` replaces double arithmetic by
exact rational arithmetic throughout). -/
def sqrtPiOver2 : ℚ := 1.2533141373155003

/-- Write to a caller-supplied `double[]` map. -/
def arrayWrite (f : Nat → ℚ) (i : Nat) (v : ℚ) : Nat → ℚ :=
  fun j => if j = i then v else f j

/-- Model of the `unsigned int` subtraction `a - b` with wraparound (used by
`mu2 += (A - _occupancy[...])` when a cell exceeds `A`). -/
def usub32 (a b : Nat) : Nat := (a + 4294967296 - b % 4294967296) % 4294967296

/-- The per-pixel body of `Histogram::calculateThresholdScanArrays`: returns
`(threshold, noise)` for pixel `(i, j)`.  `M`, `mu1`, `mu2` accumulate
occupancy counts (`mu1` over parameter indices `k` with `(double)k <
threshold`, `mu2` adds `A - occupancy` for `k > threshold`; `k` exactly equal
to `threshold` contributes to neither).  Double arithmetic is modelled as
exact rational arithmetic. -/
def thresholdNoisePixel (maxColumn maxRow : Nat) (h : Histogram)
    (d A q_max i j : Nat) : ℚ × ℚ :=
  let n := h._NparameterValues
  let M : Nat := Finset.sum (Finset.range n)
    (fun k => h._occupancy (occIdx maxColumn maxRow i j k))
  let threshold : ℚ := (q_max : ℚ) - (d : ℚ) * (M : ℚ) / (A : ℚ)
  let mu1 : Nat := Finset.sum (Finset.range n)
    (fun k => if (k : ℚ) < threshold then h._occupancy (occIdx maxColumn maxRow i j k) else 0)
  let mu2 : Nat := Finset.sum (Finset.range n)
    (fun k => if (k : ℚ) > threshold then usub32 A (h._occupancy (occIdx maxColumn maxRow i j k)) else 0)
  let noise : ℚ := (d : ℚ) * ((mu1 + mu2 : Nat) : ℚ) / (A : ℚ) * sqrtPiOver2
  (threshold, noise)

/-- Model of `Histogram::calculateThresholdScanArrays`: with fewer than 2 distinct
parameter values it returns immediately, writing nothing into the
caller-supplied `rMuArray` / `rSigmaArray`.  Otherwise
`d = (int)(((double)q_max - (double)q_min)/(n-1))` (truncation toward zero,
stored into an `unsigned int`), and for every pixel `(i, j)` the threshold and
noise are written at flat index `i + j*maxColumn`.  (The dead locals
`q_min`, `tMinOccupancy`, `tMaxOccupancy` and the debug printing for pixel
(3,15) have no state effect and are dropped.) -/
def calculateThresholdScanArrays (maxColumn maxRow : Nat) (h : Histogram)
    (rMuArray rSigmaArray : Nat → ℚ) : (Nat → ℚ) × (Nat → ℚ) :=
  if h._NparameterValues < 2 then (rMuArray, rSigmaArray)
  else
    let q_max := h._maxParameterValue
    let n := h._NparameterValues
    let A : Nat := 100
    let quot : ℚ := ((q_max : ℚ) - (h._minParameterValue : ℚ)) / ((n - 1 : Nat) : ℚ)
    let dTrunc : Int := if quot < 0 then -((-quot).floor) else quot.floor
    let d : Nat := (dTrunc % 4294967296).toNat
    (List.range maxColumn).foldl (fun acc i =>
      (List.range maxRow).foldl (fun acc j =>
        let tn := thresholdNoisePixel maxColumn maxRow h d A q_max i j
        (arrayWrite acc.1 (i + j * maxColumn) tn.1,
         arrayWrite acc.2 (i + j * maxColumn) tn.2)) acc)
      (rMuArray, rSigmaArray)

/-! Concrete states and hit batches used by the witness theorems. -/

/-- A 2×2-pixel session with occupancy histogramming enabled and a single
(`no scan parameter`) occupancy bin. -/
def exampleH0 : Histogram := setNoScanParameter 2 2 (createOccupancyHist histInit true)

/-- Two valid hits for a 2×2 sensor. -/
def exampleHits : List HitInfo :=
  [{ eventNumber := 0, column := 1, row := 1, tot := 0, relativeBCID := 0 },
   { eventNumber := 0, column := 2, row := 2, tot := 5, relativeBCID := 3 }]

/-- The state after ingesting `exampleHits` into `exampleH0`. -/
def exampleAddHitsResult : Histogram :=
  match addHits 2 2 exampleH0 exampleHits with
  | Except.ok x => x
  | Except.error _ => histInit

/-- Event-number boundary table `[0, 100, 200]`. -/
def exampleMetaEventIndex : Nat → Nat :=
  fun i => if i = 0 then 0 else if i = 1 then 100 else if i = 2 then 200 else 0

/-- Parameter table aligned with `exampleMetaEventIndex`: entry `i` has scan
parameter `10 * (i+1)`. -/
def exampleParInfo : Nat → ParInfo := fun i => { scanParameter := 10 * (i + 1) }

/-- A state with a three-entry correlation table loaded. -/
def exampleCorrHist : Histogram :=
  { histInit with _parInfo := some exampleParInfo,
                  _metaEventIndex := exampleMetaEventIndex,
                  _nMetaEventIndexLength := 3 }

/-- State `exampleCorrHist` with the cursor already past the table (so the forward
scan exhausts immediately and event numbers below the last boundary raise the
correlation error). -/
def exampleCorrHist2 : Histogram := { exampleCorrHist with _lastMetaEventIndex := 2 }

/-- Hits with out-of-range fields for an 80×336 sensor. -/
def hitBadColHigh : HitInfo := { eventNumber := 0, column := 81, row := 1, tot := 0, relativeBCID := 0 }

/-- Column 0 underflows the 0-based conversion. -/
def hitBadColZero : HitInfo := { eventNumber := 0, column := 0, row := 1, tot := 0, relativeBCID := 0 }

/-- Row 337 on a 336-row sensor. -/
def hitBadRow : HitInfo := { eventNumber := 0, column := 1, row := 337, tot := 0, relativeBCID := 0 }

/-- ToT 16 is out of the 4-bit range. -/
def hitBadTot : HitInfo := { eventNumber := 0, column := 1, row := 1, tot := 16, relativeBCID := 0 }

/-- Relative BCID 16 is out of the 4-bit range. -/
def hitBadBcid : HitInfo := { eventNumber := 0, column := 1, row := 1, tot := 0, relativeBCID := 16 }

/-- A parameter table whose second value exceeds the signed 32-bit maximum. -/
def bigParInfo : Nat → ParInfo := fun i => if i = 0 then ⟨1⟩ else ⟨2147483648⟩

/-- A state whose `ParameterValueSet` is `[5, 7, 7]`-derived (with a repeated
value, to exercise the first-match rule of `getParIndex`). -/
def exampleParHist : Histogram := { histInit with _parameterValues := [5, 7, 7] }

/-- A state with nonzero accumulated ToT and BCID counts. -/
def exampleTotState : Histogram :=
  { histInit with _tot := fun _ => 3, _relBcid := fun _ => 4 }

/-! Theorems. -/

theorem getParIndexLoop_found (p : Nat) :
    ∀ (xs : List Nat) (i0 i : Nat), xs[i]? = some p →
      (∀ j, j < i → xs[j]? ≠ some p) →
      getParIndexLoop p xs i0 = some (i0 + i) := by
  intro xs
  induction xs with
  | nil => intro i0 i hi _; simp at hi
  | cons v rest ih =>
    intro i0 i hi hmin
    cases i with
    | zero =>
      simp only [List.getElem?_cons_zero, Option.some.injEq] at hi
      simp [getParIndexLoop, hi]
    | succ n =>
      have hv : ¬ (v = p) := by
        have h0 := hmin 0 (Nat.succ_pos n)
        simpa using h0
      have hrec := ih (i0 + 1) n (by simpa using hi)
        (fun j hj => by have := hmin (j + 1) (by omega); simpa using this)
      simp only [getParIndexLoop, if_neg hv]
      rw [hrec]
      congr 1
      omega

theorem getParIndexLoop_not_mem (p : Nat) :
    ∀ (xs : List Nat) (i0 : Nat), p ∉ xs → getParIndexLoop p xs i0 = none := by
  intro xs
  induction xs with
  | nil => intro i0 _; rfl
  | cons v rest ih =>
    intro i0 hmem
    have hv : ¬ (v = p) := by
      intro hh; subst hh; exact hmem (List.mem_cons_self v rest)
    simp only [getParIndexLoop, if_neg hv]
    exact ih (i0 + 1) (fun hh => hmem (List.mem_cons_of_mem v hh))

/-- C4: `getParIndex` performs a linear search of `_parameterValues` for an
exact match and returns the position of the first match; for every value not
present in the list it returns index 0 (silent fallback, not an error). -/
theorem getParIndex_spec (h : Histogram) (v : Nat) :
    (∀ i, h._parameterValues[i]? = some v →
      (∀ j, j < i → h._parameterValues[j]? ≠ some v) → getParIndex h v = i) ∧
    (v ∉ h._parameterValues → getParIndex h v = 0) := by
  constructor
  · intro i hi hmin
    unfold getParIndex
    rw [getParIndexLoop_found v h._parameterValues 0 i hi hmin]
    simp
  · intro hmem
    unfold getParIndex
    rw [getParIndexLoop_not_mem v h._parameterValues 0 hmem]
    rfl

/-- Witness for C4: in the value list `[5, 7, 7]` the value 7 is found at its
first position 1, and the absent value 9 falls back to index 0. -/
theorem getParIndex_spec_witness :
    getParIndex exampleParHist 7 = 1 ∧ getParIndex exampleParHist 9 = 0 := by
  constructor
  · exact (getParIndex_spec exampleParHist 7).1 1 (by decide) (by decide)
  · exact (getParIndex_spec exampleParHist 9).2 (by decide)

/-- C5 (code bug): evaluating `setScanParameters` (= `addScanParameter`) on
the two entry values `[1, 2147483648]` — the second exceeding the signed
32-bit maximum — stores `ParameterValueSet = [2147483648, 1]`, which is *not*
ascending as unsigned values (the `std::set<int>` pass orders by the signed
reinterpretation), while min/max/count are still derived correctly from the
unsigned-sorted vector. -/
theorem setScanParameters_signed_reorder :
    (addScanParameter 2 2 histInit 2 bigParInfo)._parameterValues = [2147483648, 1] ∧
    (addScanParameter 2 2 histInit 2 bigParInfo)._parameterValues ≠
      List.insertionSort (fun a b => a ≤ b)
        (addScanParameter 2 2 histInit 2 bigParInfo)._parameterValues ∧
    (addScanParameter 2 2 histInit 2 bigParInfo)._minParameterValue = 1 ∧
    (addScanParameter 2 2 histInit 2 bigParInfo)._maxParameterValue = 2147483648 ∧
    (addScanParameter 2 2 histInit 2 bigParInfo)._NparameterValues = 2 := by
  refine ⟨by decide, by decide, by decide, by decide, by decide⟩

/-- C6 counterexample: with an empty entries sequence the distinct parameter
count is *not* defaulted to the safe minimum 1. -/
theorem setScanParameters_empty_count_not_one :
    (addScanParameter 2 2 histInit 0 bigParInfo)._NparameterValues ≠ 1 := by decide

/-- C6 (amended): `setScanParameters` with an empty entries sequence sets the
distinct parameter count to 0 (`std::unique` over the empty vector), not 1;
the accompanying `front()`/`back()` reads of the empty vector are undefined
behaviour in C++. -/
theorem addScanParameter_empty_count (maxColumn maxRow : Nat) (h : Histogram)
    (f : Nat → ParInfo) :
    (addScanParameter maxColumn maxRow h 0 f)._NparameterValues = 0 := by
  simp [addScanParameter, setParameterLimits, resetOccupancyArray,
    allocateOccupancyArray, deleteOccupancyArray, removeConsecutiveDuplicates]

/-- C7: with fewer than 2 distinct parameter values the threshold/noise
estimator returns without writing any element of the caller-supplied maps —
both arrays are returned unchanged. -/
theorem calculateThresholdScanArrays_lt_two (maxColumn maxRow : Nat)
    (h : Histogram) (rMuArray rSigmaArray : Nat → ℚ)
    (hlt : h._NparameterValues < 2) :
    calculateThresholdScanArrays maxColumn maxRow h rMuArray rSigmaArray
      = (rMuArray, rSigmaArray) := by
  unfold calculateThresholdScanArrays
  rw [if_pos hlt]

/-- Witness for C7: the freshly constructed histogram has a single parameter
value, so the estimator leaves the zero maps untouched. -/
theorem calculateThresholdScanArrays_lt_two_witness :
    calculateThresholdScanArrays 80 336 histInit (fun _ => 0) (fun _ => 0)
      = (fun _ => 0, fun _ => 0) :=
  calculateThresholdScanArrays_lt_two 80 336 histInit (fun _ => 0) (fun _ => 0)
    (by decide)

/-- C10: calling the ToT or relative-BCID enable setter with *any* flag value
(also `false`) reallocates the 16-slot array and zero-fills it, erasing any
previously accumulated counts, and stores the flag. -/
theorem createHist_toggle_resets (h : Histogram) (b : Bool) (i : Nat)
    (hi : i < 16) :
    (createTotHist h b)._tot i = 0 ∧ (createTotHist h b)._createTotHist = b ∧
    (createRelBCIDHist h b)._relBcid i = 0 ∧
    (createRelBCIDHist h b)._createRelBCIDhist = b := by
  refine ⟨?_, rfl, ?_, rfl⟩
  · simp [createTotHist, resetTotArray, allocateTotArray, deleteTotArray, hi]
  · simp [createRelBCIDHist, resetRelBcidArray, allocateRelBcidArray,
      deleteRelBcidArray, hi]

/-- Witness for C10: a state with accumulated counts 3 (ToT bin 5) and 4
(BCID bin 5) loses both when the setters are called with `false`. -/
theorem createHist_toggle_resets_witness :
    exampleTotState._tot 5 = 3 ∧ (createTotHist exampleTotState false)._tot 5 = 0 ∧
    exampleTotState._relBcid 5 = 4 ∧
    (createRelBCIDHist exampleTotState false)._relBcid 5 = 0 := by
  refine ⟨rfl, ?_, rfl, ?_⟩
  · exact (createHist_toggle_resets exampleTotState false 5 (by decide)).1
  · exact (createHist_toggle_resets exampleTotState false 5 (by decide)).2.2.1

theorem getEventParameterLoop_some_ge (m : Nat → Nat) (ev : Nat) :
    ∀ fuel i k, getEventParameterLoop m ev fuel i = some k → i ≤ k := by
  intro fuel
  induction fuel with
  | zero => intro i k hk; simp [getEventParameterLoop] at hk
  | succ n ih =>
    intro i k hk
    simp only [getEventParameterLoop] at hk
    by_cases hc : m (i + 1) > ev ∨ m (i + 1) < m i
    · rw [if_pos hc] at hk
      simp only [Option.some.injEq] at hk
      omega
    · rw [if_neg hc] at hk
      have := ih (i + 1) k hk
      omega

theorem getEventParameterLoop_first (m : Nat → Nat) (ev : Nat) :
    ∀ fuel i k, i ≤ k → k < i + fuel →
      (m (k + 1) > ev ∨ m (k + 1) < m k) →
      (∀ j, i ≤ j → j < k → ¬(m (j + 1) > ev ∨ m (j + 1) < m j)) →
      getEventParameterLoop m ev fuel i = some k := by
  intro fuel
  induction fuel with
  | zero => intro i k h1 h2 _ _; omega
  | succ n ih =>
    intro i k h1 h2 hc hmin
    simp only [getEventParameterLoop]
    by_cases hci : m (i + 1) > ev ∨ m (i + 1) < m i
    · rw [if_pos hci]
      have hik : i = k := by
        by_contra hne
        exact hmin i (le_refl i) (by omega) hci
      rw [hik]
    · rw [if_neg hci]
      have hik : i < k := by
        rcases Nat.lt_or_ge i k with hlt | hge
        · exact hlt
        · have : i = k := by omega
          subst this
          exact absurd hc hci
      exact ih (i + 1) k (by omega) (by omega) hc
        (fun j hj1 hj2 => hmin j (by omega) hj2)

theorem getEventParameterLoop_none (m : Nat → Nat) (ev : Nat) :
    ∀ fuel i, (∀ j, i ≤ j → j < i + fuel → ¬(m (j + 1) > ev ∨ m (j + 1) < m j)) →
      getEventParameterLoop m ev fuel i = none := by
  intro fuel
  induction fuel with
  | zero => intro i _; rfl
  | succ n ih =>
    intro i hall
    simp only [getEventParameterLoop]
    rw [if_neg (hall i (le_refl i) (by omega))]
    exact ih (i + 1) (fun j hj1 hj2 => hall j (by omega) (by omega))

/-- C3: `getEventParameter` (the spec's `resolveParameter`) returns
scan-parameter value 0 when no table is loaded; otherwise it scans forward
from the cached cursor over index pairs `(i, i+1)`, stops at the first `i`
(at or after the cursor) where the next boundary exceeds the event number or
the next boundary is below the current one, updates the cursor to `i` and
returns entry `i`'s value; when the scan exhausts the pairs it returns the
last entry's value if the last boundary is at most the event number, and
otherwise fails with the correlation error carrying the event number and the
last boundary, returning no value. -/
theorem getEventParameter_spec (h : Histogram) (ev : Nat) :
    (h._parInfo = none → getEventParameter h ev = Except.ok (0, h)) ∧
    (∀ pf, h._parInfo = some pf →
      (∀ k, h._lastMetaEventIndex ≤ k → k < h._nMetaEventIndexLength - 1 →
        (h._metaEventIndex (k + 1) > ev ∨ h._metaEventIndex (k + 1) < h._metaEventIndex k) →
        (∀ j, h._lastMetaEventIndex ≤ j → j < k →
          ¬(h._metaEventIndex (j + 1) > ev ∨ h._metaEventIndex (j + 1) < h._metaEventIndex j)) →
        getEventParameter h ev =
          Except.ok ((pf k).scanParameter, { h with _lastMetaEventIndex := k })) ∧
      ((∀ j, h._lastMetaEventIndex ≤ j → j < h._nMetaEventIndexLength - 1 →
          ¬(h._metaEventIndex (j + 1) > ev ∨ h._metaEventIndex (j + 1) < h._metaEventIndex j)) →
        (h._metaEventIndex (h._nMetaEventIndexLength - 1) ≤ ev →
          getEventParameter h ev =
            Except.ok ((pf (h._nMetaEventIndexLength - 1)).scanParameter, h)) ∧
        (h._metaEventIndex (h._nMetaEventIndexLength - 1) > ev →
          getEventParameter h ev =
            Except.error (HistError.correlationError ev
              (h._metaEventIndex (h._nMetaEventIndexLength - 1)))))) := by
  refine ⟨?_, ?_⟩
  · intro hp
    simp [getEventParameter, hp]
  · intro pf hp
    refine ⟨?_, ?_⟩
    · intro k hk1 hk2 hc hmin
      simp only [getEventParameter, hp]
      rw [getEventParameterLoop_first h._metaEventIndex ev
        (h._nMetaEventIndexLength - 1 - h._lastMetaEventIndex)
        h._lastMetaEventIndex k hk1 (by omega) hc hmin]
    · intro hall
      have hnone := getEventParameterLoop_none h._metaEventIndex ev
        (h._nMetaEventIndexLength - 1 - h._lastMetaEventIndex) h._lastMetaEventIndex
        (fun j hj1 hj2 => hall j hj1 (by omega))
      refine ⟨?_, ?_⟩
      · intro hle
        simp only [getEventParameter, hp]
        rw [hnone, if_pos hle]
      · intro hgt
        simp only [getEventParameter, hp]
        rw [hnone, if_neg (by omega)]

/-- Witness for C3: with no table an event resolves to value 0; on the
boundary table `[0, 100, 200]` with values `[10, 20, 30]`, event 50 stops at
entry 0 (next boundary 100 > 50) with the cursor set to 0; event 250 falls
through to the last entry's value 30 with the cursor untouched; and with the
cursor already at the last entry, event 150 (below the last boundary 200)
raises the correlation error carrying `(150, 200)`. -/
theorem getEventParameter_spec_witness :
    getEventParameter histInit 5 = Except.ok (0, histInit) ∧
    getEventParameter exampleCorrHist 50 =
      Except.ok (10, { exampleCorrHist with _lastMetaEventIndex := 0 }) ∧
    getEventParameter exampleCorrHist 250 = Except.ok (30, exampleCorrHist) ∧
    getEventParameter exampleCorrHist2 150 =
      Except.error (HistError.correlationError 150 200) := by
  refine ⟨?_, ?_, ?_, ?_⟩
  · exact (getEventParameter_spec histInit 5).1 rfl
  · exact ((getEventParameter_spec exampleCorrHist 50).2 exampleParInfo rfl).1 0
      (by decide) (by decide) (by decide)
      (fun j h1 h2 => absurd h2 (by omega))
  · have hall : ∀ j, exampleCorrHist._lastMetaEventIndex ≤ j →
        j < exampleCorrHist._nMetaEventIndexLength - 1 →
        ¬(exampleCorrHist._metaEventIndex (j + 1) > 250 ∨
          exampleCorrHist._metaEventIndex (j + 1) < exampleCorrHist._metaEventIndex j) := by
      intro j h1 h2
      have e2 : exampleCorrHist._nMetaEventIndexLength = 3 := rfl
      rw [e2] at h2
      rcases j with _ | j
      · decide
      · rcases j with _ | j
        · decide
        · omega
    exact (((getEventParameter_spec exampleCorrHist 250).2 exampleParInfo rfl).2 hall).1
      (by decide)
  · have hall : ∀ j, exampleCorrHist2._lastMetaEventIndex ≤ j →
        j < exampleCorrHist2._nMetaEventIndexLength - 1 →
        ¬(exampleCorrHist2._metaEventIndex (j + 1) > 150 ∨
          exampleCorrHist2._metaEventIndex (j + 1) < exampleCorrHist2._metaEventIndex j) := by
      intro j h1 h2
      have e1 : exampleCorrHist2._lastMetaEventIndex = 2 := rfl
      have e2 : exampleCorrHist2._nMetaEventIndexLength = 3 := rfl
      rw [e1] at h1
      rw [e2] at h2
      omega
    exact (((getEventParameter_spec exampleCorrHist2 150).2 exampleParInfo rfl).2 hall).2
      (by decide)

/-- C9: the correlation cursor never moves backward — whenever
`getEventParameter` returns successfully, the cursor in the returned state is
at least its value in the input state (and an aborting call leaves the cursor
untouched, since no assignment precedes the throw). -/
theorem getEventParameter_cursor_mono (h : Histogram) (ev p : Nat) (h' : Histogram)
    (heq : getEventParameter h ev = Except.ok (p, h')) :
    h._lastMetaEventIndex ≤ h'._lastMetaEventIndex := by
  rcases hp : h._parInfo with _ | pf
  · simp only [getEventParameter, hp] at heq
    simp only [Except.ok.injEq, Prod.mk.injEq] at heq
    obtain ⟨-, hh⟩ := heq
    rw [← hh]
  · simp only [getEventParameter, hp] at heq
    rcases hl : getEventParameterLoop h._metaEventIndex ev
        (h._nMetaEventIndexLength - 1 - h._lastMetaEventIndex)
        h._lastMetaEventIndex with _ | i
    · rw [hl] at heq
      by_cases hif : h._metaEventIndex (h._nMetaEventIndexLength - 1) ≤ ev
      · rw [if_pos hif] at heq
        simp only [Except.ok.injEq, Prod.mk.injEq] at heq
        obtain ⟨-, hh⟩ := heq
        rw [← hh]
      · rw [if_neg hif] at heq
        exact absurd heq (by simp)
    · rw [hl] at heq
      have hge := getEventParameterLoop_some_ge h._metaEventIndex ev _ _ _ hl
      simp only [Except.ok.injEq, Prod.mk.injEq] at heq
      obtain ⟨-, hh⟩ := heq
      rw [← hh]
      exact hge

/-- Witness for C9: resolving event 150 on the `[0, 100, 200]` table moves
the cursor from 0 to 1, which is not backward. -/
theorem getEventParameter_cursor_mono_witness :
    exampleCorrHist._lastMetaEventIndex ≤
      ({ exampleCorrHist with _lastMetaEventIndex := 1 } : Histogram)._lastMetaEventIndex :=
  getEventParameter_cursor_mono exampleCorrHist 150 20
    { exampleCorrHist with _lastMetaEventIndex := 1 } rfl

theorem addHits_cons_error (maxColumn maxRow : Nat) (h : Histogram) (hit : HitInfo)
    (rest : List HitInfo) (e : HistError × Histogram)
    (he : addHit maxColumn maxRow h hit = Except.error e) :
    addHits maxColumn maxRow h (hit :: rest) = Except.error e := by
  simp only [addHits, he]
  rfl

/-- C2: per-hit validation of `addHits`, in the order the source checks the
fields.  A 1-based column outside `[1, maxColumn]` (including column 0, whose
0-based conversion underflows, and column `maxColumn + 1`) aborts the batch at
that hit with the invalid-column error; with a valid column, a row outside
`[1, maxRow]` aborts with the invalid-row error; then ToT > 15 aborts with the
invalid-ToT error; then relative BCID > 15 aborts with the invalid-BCID
error.  The error carries the state `h` unchanged: no histogram counter is
mutated for the offending hit.  The bounds hypotheses record the machine
widths of the 0-based index variables (`unsigned short` column index,
`unsigned int` row index). -/
theorem addHits_validation (maxColumn maxRow : Nat) (h : Histogram)
    (hit : HitInfo) (rest : List HitInfo)
    (hmc1 : 1 ≤ maxColumn) (hmc2 : maxColumn ≤ 65535)
    (hmr1 : 1 ≤ maxRow) (hmr2 : maxRow ≤ 4294967295)
    (hcb : hit.column ≤ 65535) (hrb : hit.row ≤ 4294967295) :
    (hit.column = 0 ∨ maxColumn < hit.column →
      addHits maxColumn maxRow h (hit :: rest) =
        Except.error (HistError.invalidColumn, h)) ∧
    (1 ≤ hit.column → hit.column ≤ maxColumn → (hit.row = 0 ∨ maxRow < hit.row) →
      addHits maxColumn maxRow h (hit :: rest) =
        Except.error (HistError.invalidRow, h)) ∧
    (1 ≤ hit.column → hit.column ≤ maxColumn → 1 ≤ hit.row → hit.row ≤ maxRow →
      15 < hit.tot →
      addHits maxColumn maxRow h (hit :: rest) =
        Except.error (HistError.invalidTot, h)) ∧
    (1 ≤ hit.column → hit.column ≤ maxColumn → 1 ≤ hit.row → hit.row ≤ maxRow →
      hit.tot ≤ 15 → 15 < hit.relativeBCID →
      addHits maxColumn maxRow h (hit :: rest) =
        Except.error (HistError.invalidBcid, h)) := by
  refine ⟨?_, ?_, ?_, ?_⟩
  · intro hcol
    apply addHits_cons_error
    have hcond : (hit.column + 65535) % 65536 > maxColumn - 1 := by
      rcases hcol with h0 | hbig
      · omega
      · omega
    simp only [addHit]
    rw [if_pos hcond]
  · intro hc1 hc2 hrow
    apply addHits_cons_error
    have hcpass : ¬((hit.column + 65535) % 65536 > maxColumn - 1) := by omega
    have hrcond : (hit.row + 4294967295) % 4294967296 > maxRow - 1 := by
      rcases hrow with h0 | hbig
      · omega
      · omega
    simp only [addHit]
    rw [if_neg hcpass, if_pos hrcond]
  · intro hc1 hc2 hr1 hr2 htot
    apply addHits_cons_error
    have hcpass : ¬((hit.column + 65535) % 65536 > maxColumn - 1) := by omega
    have hrpass : ¬((hit.row + 4294967295) % 4294967296 > maxRow - 1) := by omega
    simp only [addHit]
    rw [if_neg hcpass, if_neg hrpass, if_pos htot]
  · intro hc1 hc2 hr1 hr2 htot hbcid
    apply addHits_cons_error
    have hcpass : ¬((hit.column + 65535) % 65536 > maxColumn - 1) := by omega
    have hrpass : ¬((hit.row + 4294967295) % 4294967296 > maxRow - 1) := by omega
    have htpass : ¬(hit.tot > 15) := by omega
    simp only [addHit]
    rw [if_neg hcpass, if_neg hrpass, if_neg htpass, if_pos hbcid]

/-- Witness for C2, on an 80×336 sensor starting from the fresh state:
column 81 and column 0 raise the invalid-column error, row 337 the
invalid-row error, ToT 16 the invalid-ToT error and BCID 16 the invalid-BCID
error — each aborting the one-hit batch with the state unchanged. -/
theorem addHits_validation_witness :
    addHits 80 336 histInit [hitBadColHigh] = Except.error (HistError.invalidColumn, histInit) ∧
    addHits 80 336 histInit [hitBadColZero] = Except.error (HistError.invalidColumn, histInit) ∧
    addHits 80 336 histInit [hitBadRow] = Except.error (HistError.invalidRow, histInit) ∧
    addHits 80 336 histInit [hitBadTot] = Except.error (HistError.invalidTot, histInit) ∧
    addHits 80 336 histInit [hitBadBcid] = Except.error (HistError.invalidBcid, histInit) := by
  refine ⟨?_, ?_, ?_, ?_, ?_⟩
  · exact (addHits_validation 80 336 histInit hitBadColHigh [] (by decide) (by decide)
      (by decide) (by decide) (by decide) (by decide)).1 (Or.inr (by decide))
  · exact (addHits_validation 80 336 histInit hitBadColZero [] (by decide) (by decide)
      (by decide) (by decide) (by decide) (by decide)).1 (Or.inl (by decide))
  · exact (addHits_validation 80 336 histInit hitBadRow [] (by decide) (by decide)
      (by decide) (by decide) (by decide) (by decide)).2.1 (by decide) (by decide)
      (Or.inr (by decide))
  · exact (addHits_validation 80 336 histInit hitBadTot [] (by decide) (by decide)
      (by decide) (by decide) (by decide) (by decide)).2.2.1 (by decide) (by decide)
      (by decide) (by decide) (by decide)
  · exact (addHits_validation 80 336 histInit hitBadBcid [] (by decide) (by decide)
      (by decide) (by decide) (by decide) (by decide)).2.2.2 (by decide) (by decide)
      (by decide) (by decide) (by decide) (by decide)

theorem occIdx_lt (maxColumn maxRow n i j k : Nat)
    (hi : i < maxColumn) (hj : j < maxRow) (hk : k < n) :
    occIdx maxColumn maxRow i j k < maxColumn * maxRow * n := by
  unfold occIdx
  have h1 : i + j * maxColumn < (j + 1) * maxColumn := by
    rw [Nat.succ_mul, Nat.add_comm i (j * maxColumn)]
    exact Nat.add_lt_add_left hi (j * maxColumn)
  have h2 : (j + 1) * maxColumn ≤ maxRow * maxColumn :=
    Nat.mul_le_mul_right maxColumn hj
  have h3 : i + j * maxColumn < maxColumn * maxRow := by
    have hx := Nat.lt_of_lt_of_le h1 h2
    rwa [Nat.mul_comm maxRow maxColumn] at hx
  have h4 : i + j * maxColumn + k * maxColumn * maxRow <
      (k + 1) * (maxColumn * maxRow) := by
    have e : k * maxColumn * maxRow = k * (maxColumn * maxRow) := by ring
    rw [e, Nat.succ_mul, Nat.add_comm (i + j * maxColumn) (k * (maxColumn * maxRow))]
    exact Nat.add_lt_add_left h3 (k * (maxColumn * maxRow))
  have h5 : (k + 1) * (maxColumn * maxRow) ≤ n * (maxColumn * maxRow) :=
    Nat.mul_le_mul_right (maxColumn * maxRow) hk
  have h6 := Nat.lt_of_lt_of_le h4 h5
  have e2 : maxColumn * maxRow * n = n * (maxColumn * maxRow) := by ring
  rw [e2]
  exact h6

theorem sum_arrayIncrement (f : Nat → Nat) (i n : Nat) (hi : i < n) :
    Finset.sum (Finset.range n) (fun j => arrayIncrement f i j)
      = Finset.sum (Finset.range n) f + 1 := by
  unfold arrayIncrement
  have h1 : ∀ j, (if j = i then f j + 1 else f j) = f j + (if j = i then 1 else 0) := by
    intro j
    split <;> simp
  calc Finset.sum (Finset.range n) (fun j => if j = i then f j + 1 else f j)
      = Finset.sum (Finset.range n) (fun j => f j + (if j = i then 1 else 0)) :=
        Finset.sum_congr rfl (fun j _ => h1 j)
    _ = Finset.sum (Finset.range n) f
        + Finset.sum (Finset.range n) (fun j => if j = i then 1 else 0) :=
        Finset.sum_add_distrib
    _ = Finset.sum (Finset.range n) f + 1 := by
        rw [Finset.sum_ite_eq' (Finset.range n) i (fun _ => 1)]
        simp [Finset.mem_range.mpr hi]

theorem getEventParameter_ok_fields (h : Histogram) (ev p : Nat) (h' : Histogram)
    (heq : getEventParameter h ev = Except.ok (p, h')) :
    h'._NparameterValues = h._NparameterValues ∧
    h'._occupancy = h._occupancy ∧
    h'._createOccHist = h._createOccHist := by
  rcases hp : h._parInfo with _ | pf
  · simp only [getEventParameter, hp] at heq
    simp only [Except.ok.injEq, Prod.mk.injEq] at heq
    obtain ⟨-, hh⟩ := heq
    subst hh
    exact ⟨rfl, rfl, rfl⟩
  · simp only [getEventParameter, hp] at heq
    rcases hl : getEventParameterLoop h._metaEventIndex ev
        (h._nMetaEventIndexLength - 1 - h._lastMetaEventIndex)
        h._lastMetaEventIndex with _ | i
    · rw [hl] at heq
      by_cases hif : h._metaEventIndex (h._nMetaEventIndexLength - 1) ≤ ev
      · rw [if_pos hif] at heq
        simp only [Except.ok.injEq, Prod.mk.injEq] at heq
        obtain ⟨-, hh⟩ := heq
        subst hh
        exact ⟨rfl, rfl, rfl⟩
      · rw [if_neg hif] at heq
        exact absurd heq (by simp)
    · rw [hl] at heq
      simp only [Except.ok.injEq, Prod.mk.injEq] at heq
      obtain ⟨-, hh⟩ := heq
      subst hh
      exact ⟨rfl, rfl, rfl⟩

theorem addHit_ok_occupancy (maxColumn maxRow : Nat) (hmc : 1 ≤ maxColumn)
    (hmr : 1 ≤ maxRow) (h h' : Histogram) (hit : HitInfo)
    (hN : 1 ≤ h._NparameterValues) (hocc : h._createOccHist = true)
    (heq : addHit maxColumn maxRow h hit = Except.ok h') :
    h'._NparameterValues = h._NparameterValues ∧
    h'._createOccHist = true ∧
    occupancySum maxColumn maxRow h' = occupancySum maxColumn maxRow h + 1 := by
  simp only [addHit] at heq
  by_cases hc1 : (hit.column + 65535) % 65536 > maxColumn - 1
  · rw [if_pos hc1] at heq
    exact absurd heq (by simp)
  rw [if_neg hc1] at heq
  by_cases hc2 : (hit.row + 4294967295) % 4294967296 > maxRow - 1
  · rw [if_pos hc2] at heq
    exact absurd heq (by simp)
  rw [if_neg hc2] at heq
  by_cases hc3 : hit.tot > 15
  · rw [if_pos hc3] at heq
    exact absurd heq (by simp)
  rw [if_neg hc3] at heq
  by_cases hc4 : hit.relativeBCID > 15
  · rw [if_pos hc4] at heq
    exact absurd heq (by simp)
  rw [if_neg hc4] at heq
  split at heq
  · exact absurd heq (by simp)
  rename_i p h1 hg
  obtain ⟨hgN, hgO, hgF⟩ := getEventParameter_ok_fields h hit.eventNumber p h1 hg
  by_cases hc5 : getParIndex h1 p > h1._NparameterValues - 1
  · rw [if_pos hc5] at heq
    exact absurd heq (by simp)
  rw [if_neg hc5] at heq
  simp only [Except.ok.injEq] at heq
  have hf1 : h1._createOccHist = true := by rw [hgF]; exact hocc
  subst heq
  have hidx : occIdx maxColumn maxRow ((hit.column + 65535) % 65536)
      ((hit.row + 4294967295) % 4294967296) (getParIndex h1 p) <
      maxColumn * maxRow * h._NparameterValues := by
    apply occIdx_lt
    · omega
    · omega
    · omega
  refine ⟨?_, ?_, ?_⟩
  · by_cases hb2 : h1._createRelBCIDhist <;> by_cases hb3 : h1._createTotHist <;>
      simp [hf1, hb2, hb3, hgN]
  · by_cases hb2 : h1._createRelBCIDhist <;> by_cases hb3 : h1._createTotHist <;>
      simp [hf1, hb2, hb3]
  · by_cases hb2 : h1._createRelBCIDhist <;> by_cases hb3 : h1._createTotHist <;>
      · simp only [occupancySum, hf1, hb2, hb3]
        simp only [hgN, hgO]
        exact sum_arrayIncrement h._occupancy _ _ hidx

/-- C1: for every batch in which every hit passes validation (the run returns
successfully), with occupancy histogramming enabled, the sum over all cells
of the occupancy array after ingestion equals its sum before plus the number
of hits in the batch; in particular, starting from a zeroed array it equals
the number of ingested hits.  The `1 ≤ _NparameterValues` hypothesis is the
spec's `ParameterValueSet` size invariant (§3). -/
theorem addHits_occupancy_sum (maxColumn maxRow : Nat) (hmc : 1 ≤ maxColumn)
    (hmr : 1 ≤ maxRow) (h h' : Histogram) (hits : List HitInfo)
    (hN : 1 ≤ h._NparameterValues) (hocc : h._createOccHist = true)
    (heq : addHits maxColumn maxRow h hits = Except.ok h') :
    occupancySum maxColumn maxRow h' = occupancySum maxColumn maxRow h + hits.length := by
  induction hits generalizing h with
  | nil =>
    simp only [addHits] at heq
    simp only [Except.ok.injEq] at heq
    subst heq
    simp
  | cons hit rest ih =>
    simp only [addHits] at heq
    rcases hg : addHit maxColumn maxRow h hit with e | h1
    · rw [hg] at heq
      exact absurd heq (by simp [Except.bind])
    · rw [hg] at heq
      simp only [Except.bind] at heq
      obtain ⟨hN1, hf1, hsum1⟩ :=
        addHit_ok_occupancy maxColumn maxRow hmc hmr h h1 hit hN hocc hg
      have hrest := ih h1 (by omega) hf1 heq
      rw [hrest, hsum1]
      simp [List.length_cons]
      omega

/-- Witness for C1: ingesting the two valid hits of `exampleHits` into the
zeroed 2×2 single-parameter state yields occupancy sum 2 = 0 + 2. -/
theorem addHits_occupancy_sum_witness :
    occupancySum 2 2 exampleAddHitsResult = occupancySum 2 2 exampleH0 + 2 := by
  have heq : addHits 2 2 exampleH0 exampleHits = Except.ok exampleAddHitsResult := rfl
  have hmain := addHits_occupancy_sum 2 2 (by decide) (by decide) exampleH0
    exampleAddHitsResult exampleHits (by decide) (by decide) heq
  simpa using hmain
